import Mathlib

/-!
Verification of the food-chain index pipeline of `biotools/foodchain.py`:
the survey-point enrichment step (`_Surveypoint.enrich`) and the five
index calculators (`FoodResourceCount`, `DiversityIndex`,
`CombinableProducersAndConsumers`, `ConnectionStrength`,
`SimilarFunctionalSpecies`) together with the final left merge onto the
biotope (zone) table.

Modelling conventions:
* pandas DataFrames become lists of records; a nullable column is an
  `Option`.
* `groupby` and `value_counts` over a key column drop null keys (pandas
  semantics), which the source additionally guards with
  `if bt_id is None: continue`.
* numeric columns are `ℚ`.  The float NaN produced by the degenerate
  min-max normalization is modelled as `none` per element, and the
  subsequent `fillna` fills it with 0 exactly as it fills the nulls of
  unmatched zones.
* a computation that raises in Python — `max()` of an empty sequence,
  `math.log2` outside its domain, a tuple index out of range — makes the
  whole `run` return `none`, since the exception aborts the run.
* `arcutils.shp_to_df` / `arcutils.clean_join` (file input and output) and
  the arcpy spatial join are out of scope: the embedding starts from the
  spatially joined survey rows and ends with the merged per-zone table.
-/

namespace Biotools

/-- The raw `개체수` (individual count) field of a survey point before
`pd.to_numeric(..., errors="coerce").fillna(1)` (foodchain.py:396-399):
a numeric value, a non-numeric string that fails parsing, or a missing
value. -/
inductive RawField
  | numeric (q : ℚ)
  | malformed
  | absent
deriving DecidableEq

/-- `pd.to_numeric(col, errors="coerce").fillna(1)` (foodchain.py:396-399):
numeric values pass through, parse failures and missing values are
coerced to NaN and then filled with 1.  The coercion is total: it never
raises. -/
def coerceCount : RawField → ℚ
  | .numeric q => q
  | .malformed => 1
  | .absent => 1

/-- A survey point after the arcpy spatial join against the biotope layer:
`BT_ID` is null for points that fall outside every zone, `name` is the
`국명` (species name) column, `raw` the raw `개체수` field. -/
structure SurveyRow where
  btId : Option String
  name : String
  raw : RawField
deriving DecidableEq

/-- One row of the food-chain info CSV, keyed by `S_Name`, with the three
trait columns the calculators read: `Owls_foods`, `D_Level`,
`Alternative_S`. -/
structure Trait where
  sName : String
  owlsFoods : Option String
  dLevel : Option String
  altS : Option String
deriving DecidableEq

/-- A survey row after the left merge with the trait table, before count
coercion.  `altS` is the CSV column `Alternative_S` (the column
`SimilarFunctionalSpecies.run` reads, foodchain.py:228); `altSLower` is
the distinct column `Alternative_s` that the retain-placeholder branch
writes (foodchain.py:391) — pandas column names are case-sensitive, so
the two are separate columns. -/
structure PreObs where
  btId : Option String
  name : String
  owlsFoods : Option String
  dLevel : Option String
  altS : Option String
  altSLower : Option String
  raw : RawField
deriving DecidableEq

/-- A fully enriched observation: the merged row plus the coerced
`개체수` count. -/
structure Obs where
  btId : Option String
  name : String
  owlsFoods : Option String
  dLevel : Option String
  altS : Option String
  altSLower : Option String
  raw : RawField
  count : ℚ
deriving DecidableEq

/-- `pd.merge(..., how="left", left_on="국명", right_on="S_Name")`
(foodchain.py:371-377): species without a trait row keep null trait
fields.  The spec treats duplicate trait rows for one species as a
data-quality precondition violation, so the first matching row is
taken. -/
def mergeTraitRow (traits : List Trait) (r : SurveyRow) : PreObs :=
  match traits.find? (fun t => t.sName = r.name) with
  | some t => ⟨r.btId, r.name, t.owlsFoods, t.dLevel, t.altS, none, r.raw⟩
  | none => ⟨r.btId, r.name, none, none, none, none, r.raw⟩

/-- Modelled from the spec: `pdplus.drop_if` is code of this repository
that is not present under `src/`.  Per the drop placeholder policy it
removes exactly the rows satisfying the predicate and keeps all others
unchanged. -/
def dropIf (l : List PreObs) (p : PreObs → Prop) [DecidablePred p] : List PreObs :=
  l.filter (fun r => ¬ p r)

/-- Modelled from the spec: `pdplus.replace_row` is code of this
repository that is not present under `src/`.  Per the retain placeholder
policy it overwrites the named columns of every row satisfying the
predicate, with pandas' case-sensitive column names (a name that is not
an existing column becomes a new column).  Specialised to the call site
(foodchain.py:385-394), whose dictionary writes `국명`, `Owls_foods`,
`D_Level` and `Alternative_s` — note the lower-case `s`: the column the
calculators read is `Alternative_S`, which is left untouched. -/
def replaceNonameRow (r : PreObs) : PreObs :=
  if r.name = " " then
    { r with name := "Noname", owlsFoods := some "Normal_S",
             dLevel := some "D3", altSLower := some "Normal_S" }
  else r

/-- The final count-coercion step of `enrich` applied to one row. -/
def coerceRow (r : PreObs) : Obs :=
  ⟨r.btId, r.name, r.owlsFoods, r.dLevel, r.altS, r.altSLower, r.raw,
    coerceCount r.raw⟩

/-- `_Surveypoint.enrich` (foodchain.py:366-399) after the spatial join:
left merge with the trait table, then the placeholder policy
(`skip_noname` drops rows whose `국명` is the single-space placeholder,
otherwise they are overwritten with the fallback values), then count
coercion. -/
def enrich (traits : List Trait) (skipNoname : Bool) (rows : List SurveyRow) :
    List Obs :=
  let merged := rows.map (mergeTraitRow traits)
  let policed :=
    if skipNoname then dropIf merged (fun r => r.name = " ")
    else merged.map replaceNonameRow
  policed.map coerceRow

/-- The keys of `surveypoint_df.groupby("BT_ID")`: the distinct non-null
zone ids in first-occurrence order (pandas drops null group keys, and the
source additionally guards `if bt_id is None: continue`).  The final
table order is driven by the biotope table, not by this list. -/
def zoneIds (obs : List Obs) : List String :=
  (obs.filterMap (·.btId)).dedup

/-- The rows of one `groupby("BT_ID")` group. -/
def zoneRows (obs : List Obs) (z : String) : List Obs :=
  obs.filter (fun r => r.btId = some z)

/-- One `FoodResourceCount` zone row (foodchain.py:40-47), as
`(prey_count, total_count, result)`.
`count_s = sub_df.groupby("Owls_foods").sum()["개체수"]` keeps only rows
with a non-null diet category, so `total_count` sums the counts of the
categorised rows and `prey_count` those of the `Prey_S` rows (0 when the
category is absent); `result = prey_count / total_count`.  Rational
division by zero is 0 here; in the source a `0/0` denominator yields a
float NaN that `fillna({"F1_RESULT": 0})` later turns into 0 (a nonzero
numerator over zero, reachable only with negative coerced counts, yields
a float infinity instead — no theorem below relies on that corner). -/
def f1Row (rows : List Obs) : ℚ × ℚ × ℚ :=
  let total := ((rows.filter (fun r => r.owlsFoods.isSome)).map (·.count)).sum
  let prey := ((rows.filter (fun r => r.owlsFoods = some "Prey_S")).map (·.count)).sum
  (prey, total, prey / total)

/-- The grouped `FoodResourceCount` table before the merge
(foodchain.py:39-52). -/
def foodResourceCountAgg (obs : List Obs) : List (String × ℚ × ℚ × ℚ) :=
  (zoneIds obs).map (fun z => (z, f1Row (zoneRows obs z)))

/-- `biotope_df[["BT_ID"]].merge(result_df, how="left", on="BT_ID")`:
every univ row is kept in order; a univ key without an aggregate
row yields a null result, one with matches yields one output row per
matching aggregate row. -/
def leftMerge {β : Type} (univ : List String) (rows : List (String × β)) :
    List (String × Option β) :=
  match univ with
  | [] => []
  | z :: u =>
    (match rows.filter (fun r => r.1 = z) with
     | [] => [(z, none)]
     | ms => ms.map (fun m => (z, some m.2))) ++ leftMerge u rows

/-- `result_df.fillna({"F_RESULT": 0})` after the merge: null results
become 0 (the other columns are not part of the modelled output). -/
def fillnaResult (t : List (String × Option ℚ)) : List (String × ℚ) :=
  t.map (fun r => (r.1, r.2.getD 0))

/-- `FoodResourceCount.run` (foodchain.py:35-56) up to the final shapefile
join: group per zone, merge onto the zone univ, fill null results
with 0. -/
def foodResourceCountRun (univ : List String) (obs : List Obs) :
    List (String × ℚ) :=
  fillnaResult (leftMerge univ
    ((foodResourceCountAgg obs).map (fun r => (r.1, r.2.2.2))))

/-- `ConnectionStrength.run` per-zone prey count (foodchain.py:188-189):
`sub_df["Owls_foods"].value_counts()` counts rows per category (null
categories dropped), so `prey_count` is the number of rows whose
`Owls_foods` is `Prey_S`. -/
def f4PreyCount (rows : List Obs) : ℕ :=
  (rows.filter (fun r => r.owlsFoods = some "Prey_S")).length

/-- The grouped `ConnectionStrength` table (foodchain.py:184-190):
`[bt_id, prey_count, int(prey_count > 0)]`. -/
def connectionAgg (obs : List Obs) : List (String × ℕ × ℚ) :=
  (zoneIds obs).map (fun z =>
    (z, f4PreyCount (zoneRows obs z),
      if 0 < f4PreyCount (zoneRows obs z) then (1 : ℚ) else 0))

/-- `ConnectionStrength.run` (foodchain.py:180-196) up to the final
shapefile join. -/
def connectionStrengthRun (univ : List String) (obs : List Obs) :
    List (String × ℚ) :=
  fillnaResult (leftMerge univ
    ((connectionAgg obs).map (fun r => (r.1, r.2.2))))

/-- `SimilarFunctionalSpecies.run` per-zone category count
(foodchain.py:228-232): `value_counts` of `Alternative_S` (null
dropped). -/
def altCount (rows : List Obs) (c : String) : ℕ :=
  (rows.filter (fun r => r.altS = some c)).length

/-- `SimilarFunctionalSpecies.run` zone result (foodchain.py:239):
`int(alt_count > 0)`. -/
def f5Result (rows : List Obs) : ℚ :=
  if 0 < altCount rows "Alt_S" then 1 else 0

/-- `SimilarFunctionalSpecies.run` (foodchain.py:220-249) up to the final
shapefile join. -/
def similarFunctionalRun (univ : List String) (obs : List Obs) :
    List (String × ℚ) :=
  fillnaResult (leftMerge univ
    ((zoneIds obs).map (fun z => (z, f5Result (zoneRows obs z)))))

/-- `CombinableProducersAndConsumers.run` tier row count
(foodchain.py:143-144): `value_counts` of `D_Level` (null dropped),
looked up per tier name with default 0. -/
def dLevelCount (rows : List Obs) (d : String) : ℕ :=
  (rows.filter (fun r => r.dLevel = some d)).length

/-- `unique_count = sum(bool(d_count) for d_count in d_counts)`
(foodchain.py:144-145): how many of the three tiers `D1`, `D2`, `D3`
have at least one row in the zone. -/
def f3Unique (rows : List Obs) : ℕ :=
  ((["D1", "D2", "D3"].map (dLevelCount rows)).filter (fun n => 0 < n)).length

/-- `score = self._scores[3 - unique_count]` (foodchain.py:146): a tuple
lookup, `none` when the index is out of range (Python `IndexError`). -/
def f3Score (scores : List ℚ) (rows : List Obs) : Option ℚ :=
  scores.get? (3 - f3Unique rows)

/-- The default score table `scores=(1, 0.6, 0.3)` (foodchain.py:121). -/
def defaultScores : List ℚ := [1, 3/5, 3/10]

/-- `CombinableProducersAndConsumers.run` (foodchain.py:135-156) up to the
final shapefile join.  An out-of-range score lookup in any grouped zone
raises `IndexError` and aborts the run (`none`); otherwise the per-zone
scores are merged onto the univ and null-filled. -/
def combinableRun (scores : List ℚ) (univ : List String) (obs : List Obs) :
    Option (List (String × ℚ)) :=
  let zs := zoneIds obs
  if ∀ z ∈ zs, (f3Score scores (zoneRows obs z)).isSome then
    some (fillnaResult (leftMerge univ
      (zs.map (fun z => (z, (f3Score scores (zoneRows obs z)).getD 0)))))
  else none

/-- The rows of `sub_df[sub_df["Owls_foods"] == "Prey_S"]`
(foodchain.py:88). -/
def preyRowsOf (rows : List Obs) : List Obs :=
  rows.filter (fun r => r.owlsFoods = some "Prey_S")

/-- The keys of `groupby("국명")` over the prey rows of a zone
(foodchain.py:88). -/
def zoneSpecies (rows : List Obs) : List String :=
  ((preyRowsOf rows).map (·.name)).dedup

/-- The per-species summed counts
`sub_df[sub_df["Owls_foods"] == "Prey_S"].groupby("국명").sum()["개체수"]`
(foodchain.py:88). -/
def zonePreyCounts (rows : List Obs) : List ℚ :=
  (zoneSpecies rows).map (fun s =>
    (((preyRowsOf rows).filter (fun r => r.name = s)).map (·.count)).sum)

/-- `DiversityIndex._get_shannon_index` (foodchain.py:101-104):
`total = sum(counts)`, proportions `p = count/total`,
`H = Σ -(p · log2 p)`.  An empty series yields the empty sum 0 without
ever calling `log2`.  For a nonempty series, `math.log2` is defined
exactly on positive proportions, so the source raises `ValueError` as
soon as some proportion is ≤ 0; a zero total (reachable only with
nonpositive coerced counts) produces float NaN/∞ proportions with no
finite defined entropy.  Both failure shapes are modelled as `none`,
guarded by positivity of every rational proportion (`c / 0 = 0` in `ℚ`,
so a zero total also fails the guard). -/
noncomputable def getShannonIndex (counts : List ℚ) : Option ℝ :=
  if counts = [] then some 0
  else if counts.all (fun c => 0 < c / counts.sum) then
    some ((counts.map (fun c : ℚ =>
      -((((c : ℚ) : ℝ) / ((counts.sum : ℚ) : ℝ)) *
        Real.logb 2 (((c : ℚ) : ℝ) / ((counts.sum : ℚ) : ℝ))))).sum)
  else none

/-- The Shannon index of one zone (foodchain.py:88-89). -/
noncomputable def zoneShannon (rows : List Obs) : Option ℝ :=
  getShannonIndex (zonePreyCounts rows)

/-- Python `max` over a sequence: raises (`none`) on an empty one. -/
noncomputable def pyMax : List ℝ → Option ℝ
  | [] => none
  | x :: xs => some (xs.foldl max x)

/-- Python `min` over a sequence: raises (`none`) on an empty one. -/
noncomputable def pyMin : List ℝ → Option ℝ
  | [] => none
  | x :: xs => some (xs.foldl min x)

open Classical in
/-- `DiversityIndex._minmax_normalize` (foodchain.py:106-109).
`max(seq)` and `min(seq)` raise `ValueError` on an empty sequence
(`none`).  Otherwise each element maps to
`(i - minimum) / (maximum - minimum)`; when `maximum == minimum` every
quotient is the float `0.0/0.0`, i.e. NaN (numpy scalars do not raise),
modelled as `none` per element — the later
`fillna({"F2_RESULT": 0})` fills those with 0. -/
noncomputable def minmaxNormalize (seq : List ℝ) : Option (List (Option ℝ)) :=
  match pyMax seq, pyMin seq with
  | some mx, some mn =>
    some (seq.map (fun i => if mx = mn then none else some ((i - mn) / (mx - mn))))
  | _, _ => none

/-- `fillna({"F2_RESULT": 0})` for the diversity table: a result missing
because the zone had no aggregate row (outer `none`) and a NaN produced
by the degenerate normalization (inner `none`) are both filled with 0. -/
noncomputable def fillnaResultR (t : List (String × Option (Option ℝ))) :
    List (String × ℝ) :=
  t.map (fun r => (r.1, (r.2.join).getD 0))

/-- `DiversityIndex.run` (foodchain.py:80-99) up to the final shapefile
join.  If any grouped zone's entropy is undefined the `ValueError` from
`log2` aborts the run; with no grouped zone at all, `max` of the empty
`F2_SHANNON` column aborts it; otherwise the per-zone entropies are
min-max normalised across zones, merged onto the univ and
null-filled. -/
noncomputable def diversityIndexRun (univ : List String) (obs : List Obs) :
    Option (List (String × ℝ)) :=
  let zs := zoneIds obs
  if ∀ z ∈ zs, (zoneShannon (zoneRows obs z)).isSome then
    match minmaxNormalize (zs.map (fun z => (zoneShannon (zoneRows obs z)).getD 0)) with
    | some norm => some (fillnaResultR (leftMerge univ (zs.zip norm)))
    | none => none
  else none

/-! ### Concrete scenario data used by the closed theorems -/

/-- A two-species trait table: `A` is a prey species on tier `D1` with
substitution class `Alt_S`; `B` is a normal species on tier `D2`. -/
def demoTraits : List Trait :=
  [⟨"A", some "Prey_S", some "D1", some "Alt_S"⟩,
   ⟨"B", some "Normal_S", some "D2", some "Normal_S"⟩]

/-- Two survey points in zone `Z1`: species `A` with raw count 3 and `B`
with raw count 1. -/
def demoSurvey : List SurveyRow :=
  [⟨some "Z1", "A", .numeric 3⟩, ⟨some "Z1", "B", .numeric 1⟩]

/-- The enrichment of `demoSurvey` under the drop-placeholder policy. -/
def demoObs : List Obs := enrich demoTraits true demoSurvey

/-- One observation in `Z1` whose species has no trait-table row, so every
trait field is null after the merge; its raw count parses to 1. -/
def unmatchedSurvey : List SurveyRow := [⟨some "Z1", "C", .numeric 1⟩]

/-- The enrichment of `unmatchedSurvey` against an empty trait table. -/
def unmatchedObs : List Obs := enrich [] true unmatchedSurvey

/-- A placeholder survey point (species name `" "`) in `Z1`. -/
def placeholderSurvey : List SurveyRow := [⟨some "Z1", " ", .absent⟩]

/-- `placeholderSurvey` enriched under the retain policy
(`skip_noname=False`) with an empty trait table. -/
def placeholderObs : List Obs := enrich [] false placeholderSurvey

/-- A trait table in which both `A` and `B` are prey species. -/
def zeroCountTraits : List Trait :=
  [⟨"A", some "Prey_S", some "D1", some "Alt_S"⟩,
   ⟨"B", some "Prey_S", some "D1", some "Alt_S"⟩]

/-- Two prey observations of different species in `Z1`, one of whose raw
counts is the numeric string `0` (so the coerced count is 0, not 1). -/
def zeroCountSurvey : List SurveyRow :=
  [⟨some "Z1", "A", .numeric 1⟩, ⟨some "Z1", "B", .numeric 0⟩]

/-- The enrichment of `zeroCountSurvey`. -/
def zeroCountObs : List Obs := enrich zeroCountTraits true zeroCountSurvey

/-- The enriched form of the `A` observation of `demoSurvey`. -/
def rowA : Obs :=
  ⟨some "Z1", "A", some "Prey_S", some "D1", some "Alt_S", none, .numeric 3, 3⟩

/-- The enriched form of the `B` observation of `demoSurvey`. -/
def rowB : Obs :=
  ⟨some "Z1", "B", some "Normal_S", some "D2", some "Normal_S", none, .numeric 1, 1⟩

/-- The enriched form of the single observation of `unmatchedSurvey`. -/
def rowC : Obs := ⟨some "Z1", "C", none, none, none, none, .numeric 1, 1⟩

/-- The enriched form of the `A` observation of `zeroCountSurvey`. -/
def rowZA : Obs :=
  ⟨some "Z1", "A", some "Prey_S", some "D1", some "Alt_S", none, .numeric 1, 1⟩

/-- The enriched form of the `B` observation of `zeroCountSurvey`: its
coerced count is 0. -/
def rowZB : Obs :=
  ⟨some "Z1", "B", some "Prey_S", some "D1", some "Alt_S", none, .numeric 0, 0⟩

/-! ### Helper lemmas about the final left merge -/

theorem demoObs_eval : demoObs = [rowA, rowB] := rfl

theorem demoPreyCounts_eval : zonePreyCounts (zoneRows demoObs "Z1") = [3] := by
  unfold zonePreyCounts
  rw [show zoneSpecies (zoneRows demoObs "Z1") = ["A"] from rfl,
    show preyRowsOf (zoneRows demoObs "Z1") = [rowA] from rfl]
  norm_num [rowA, List.filter]

theorem unmatchedObs_eval : unmatchedObs = [rowC] := rfl

theorem zeroCountObs_eval : zeroCountObs = [rowZA, rowZB] := rfl

theorem filter_key_eq_find {β : Type} (rows : List (String × β)) (z : String)
    (h : (rows.map Prod.fst).Nodup) :
    rows.filter (fun r => r.1 = z) = (rows.find? (fun r => r.1 = z)).toList := by
  induction rows with
  | nil => rfl
  | cons a l ih =>
    rw [List.map_cons, List.nodup_cons] at h
    by_cases hz : a.1 = z
    · rw [List.filter_cons_of_pos (by simpa using hz),
        List.find?_cons_of_pos _ (by simpa using hz)]
      have hnil : l.filter (fun r => decide (r.1 = z)) = [] := by
        rw [List.filter_eq_nil_iff]
        intro r hr
        simp only [decide_eq_true_eq]
        intro hrz
        exact h.1 (hz ▸ hrz ▸ List.mem_map_of_mem Prod.fst hr)
      simp [hnil]
    · rw [List.filter_cons_of_neg (by simpa using hz),
        List.find?_cons_of_neg _ (by simpa using hz)]
      exact ih h.2

theorem leftMerge_eq_map {β : Type} (univ : List String) (rows : List (String × β))
    (h : (rows.map Prod.fst).Nodup) :
    leftMerge univ rows
      = univ.map (fun z => (z, (rows.find? (fun r => r.1 = z)).map Prod.snd)) := by
  induction univ with
  | nil => rfl
  | cons z u ih =>
    show (match rows.filter (fun r => r.1 = z) with
      | [] => [(z, none)]
      | ms => ms.map (fun m => (z, some m.2))) ++ leftMerge u rows = _
    rw [filter_key_eq_find rows z h, ih]
    cases hf : rows.find? (fun r => r.1 = z) with
    | none => simp [hf]
    | some m =>
      have : m.1 = z := by simpa using List.find?_some hf
      simp [hf, this]

theorem keys_map_pair {β : Type} (zs : List String) (g : String → β) :
    ((zs.map (fun z => (z, g z))).map Prod.fst) = zs := by
  simp [Function.comp_def]

theorem find?_map_pair_of_not_mem {β : Type} (zs : List String) (g : String → β)
    (z : String) (hz : z ∉ zs) :
    (zs.map (fun x => (x, g x))).find? (fun r => r.1 = z) = none := by
  rw [List.find?_eq_none]
  rintro ⟨a, b⟩ hab
  simp only [List.mem_map] at hab
  obtain ⟨x, hx, hxe⟩ := hab
  cases hxe
  simp only [decide_eq_true_eq]
  rintro rfl
  exact hz hx

theorem mergeShape_length {β : Type} (univ zs : List String) (g : String → β)
    (hz : zs.Nodup) :
    (leftMerge univ (zs.map (fun z => (z, g z)))).length = univ.length := by
  rw [leftMerge_eq_map _ _ (by rw [keys_map_pair]; exact hz), List.length_map]

theorem mergeShape_absent {β : Type} (univ zs : List String) (g : String → β)
    (hz : zs.Nodup) (z : String) (hu : z ∈ univ) (hnz : z ∉ zs) :
    (z, (none : Option β)) ∈ leftMerge univ (zs.map (fun x => (x, g x))) := by
  rw [leftMerge_eq_map _ _ (by rw [keys_map_pair]; exact hz)]
  refine List.mem_map.mpr ⟨z, hu, ?_⟩
  rw [find?_map_pair_of_not_mem _ _ _ hnz]
  rfl

theorem fillnaResult_length (t : List (String × Option ℚ)) :
    (fillnaResult t).length = t.length :=
  List.length_map t _

theorem fillnaResult_mem_zero (t : List (String × Option ℚ)) (z : String)
    (h : (z, none) ∈ t) : (z, (0 : ℚ)) ∈ fillnaResult t :=
  List.mem_map_of_mem _ h

theorem fillnaResultR_length (t : List (String × Option (Option ℝ))) :
    (fillnaResultR t).length = t.length :=
  List.length_map t _

theorem fillnaResultR_mem_zero (t : List (String × Option (Option ℝ))) (z : String)
    (h : (z, none) ∈ t) : (z, (0 : ℝ)) ∈ fillnaResultR t :=
  List.mem_map_of_mem _ h

/-! ### Helper lemmas about sums, zones and the run pipelines -/

theorem zoneIds_nodup (obs : List Obs) : (zoneIds obs).Nodup :=
  List.nodup_dedup _

theorem preySum_nonneg_le_catSum (rows : List Obs)
    (hpos : ∀ r ∈ rows, 0 ≤ r.count) :
    0 ≤ ((rows.filter (fun r => r.owlsFoods = some "Prey_S")).map (·.count)).sum
    ∧ ((rows.filter (fun r => r.owlsFoods = some "Prey_S")).map (·.count)).sum
      ≤ ((rows.filter (fun r => r.owlsFoods.isSome)).map (·.count)).sum := by
  induction rows with
  | nil => simp
  | cons a l ih =>
    have ha := hpos a (List.mem_cons_self _ _)
    have ihl := ih (fun r hr => hpos r (List.mem_cons_of_mem _ hr))
    by_cases hp : a.owlsFoods = some "Prey_S"
    · have hq : a.owlsFoods.isSome = true := by rw [hp]; rfl
      rw [List.filter_cons_of_pos (by simpa using hp),
        List.filter_cons_of_pos (by simpa using hq),
        List.map_cons, List.map_cons, List.sum_cons, List.sum_cons]
      exact ⟨add_nonneg ha ihl.1, add_le_add_left ihl.2 a.count⟩
    · by_cases hq : a.owlsFoods.isSome
      · rw [List.filter_cons_of_neg (by simpa using hp),
          List.filter_cons_of_pos (by simpa using hq),
          List.map_cons, List.sum_cons]
        exact ⟨ihl.1, ihl.2.trans (le_add_of_nonneg_left ha)⟩
      · rw [List.filter_cons_of_neg (by simpa using hp),
          List.filter_cons_of_neg (by simpa using hq)]
        exact ihl

theorem catSum_pos (rows : List Obs) (hpos : ∀ r ∈ rows, 0 < r.count)
    (hcat : ∃ r ∈ rows, r.owlsFoods.isSome) :
    0 < ((rows.filter (fun r => r.owlsFoods.isSome)).map (·.count)).sum := by
  obtain ⟨r, hr, hrs⟩ := hcat
  have hmem : r.count ∈ (rows.filter (fun r => r.owlsFoods.isSome)).map (·.count) :=
    List.mem_map_of_mem _ (List.mem_filter.mpr ⟨hr, by simpa using hrs⟩)
  have hle : r.count ≤ ((rows.filter (fun r => r.owlsFoods.isSome)).map (·.count)).sum := by
    refine List.single_le_sum (fun x hx => ?_) _ hmem
    obtain ⟨s, hs, rfl⟩ := List.mem_map.mp hx
    exact le_of_lt (hpos s (List.mem_of_mem_filter hs))
  exact lt_of_lt_of_le (hpos r hr) hle

theorem foodResourceCountRun_eq (univ : List String) (obs : List Obs) :
    foodResourceCountRun univ obs
      = fillnaResult (leftMerge univ ((zoneIds obs).map
          (fun z => (z, (f1Row (zoneRows obs z)).2.2)))) := by
  unfold foodResourceCountRun foodResourceCountAgg
  rw [List.map_map]
  rfl

theorem connectionStrengthRun_eq (univ : List String) (obs : List Obs) :
    connectionStrengthRun univ obs
      = fillnaResult (leftMerge univ ((zoneIds obs).map
          (fun z => (z, if 0 < f4PreyCount (zoneRows obs z) then (1 : ℚ) else 0)))) := by
  unfold connectionStrengthRun connectionAgg
  rw [List.map_map]
  rfl

theorem zip_self_map {α β : Type} (l : List α) (w : α → β) :
    l.zip (l.map w) = l.map (fun a => (a, w a)) := by
  induction l with
  | nil => rfl
  | cons a t ih => simp [ih]

theorem minmaxNormalize_of_ne_nil (seq : List ℝ) (h : seq ≠ []) :
    ∃ e : ℝ → Option ℝ, minmaxNormalize seq = some (seq.map e) := by
  obtain ⟨a, t, rfl⟩ := List.exists_cons_of_ne_nil h
  exact ⟨fun i => if (t.foldl max a) = (t.foldl min a) then none
      else some ((i - t.foldl min a) / (t.foldl max a - t.foldl min a)), rfl⟩

theorem combinableRun_spec (scores : List ℚ) (univ : List String) (obs : List Obs)
    (hdef : ∀ z ∈ zoneIds obs, (f3Score scores (zoneRows obs z)).isSome) :
    ∃ tb, combinableRun scores univ obs = some tb ∧ tb.length = univ.length
      ∧ ∀ z ∈ univ, z ∉ zoneIds obs → (z, (0 : ℚ)) ∈ tb := by
  unfold combinableRun
  rw [if_pos hdef]
  refine ⟨_, rfl, ?_, fun z hu hnz => ?_⟩
  · rw [fillnaResult_length, mergeShape_length _ _ _ (zoneIds_nodup obs)]
  · exact fillnaResult_mem_zero _ _ (mergeShape_absent _ _ _ (zoneIds_nodup obs) z hu hnz)

theorem diversityIndexRun_spec (univ : List String) (obs : List Obs)
    (hne : zoneIds obs ≠ [])
    (hdef : ∀ z ∈ zoneIds obs, (zoneShannon (zoneRows obs z)).isSome) :
    ∃ tb, diversityIndexRun univ obs = some tb ∧ tb.length = univ.length
      ∧ ∀ z ∈ univ, z ∉ zoneIds obs → (z, (0 : ℝ)) ∈ tb := by
  unfold diversityIndexRun
  rw [if_pos hdef]
  have hseq : (zoneIds obs).map (fun z => (zoneShannon (zoneRows obs z)).getD 0) ≠ [] := by
    simpa using hne
  obtain ⟨e, he⟩ := minmaxNormalize_of_ne_nil _ hseq
  rw [he, List.map_map]
  refine ⟨_, rfl, ?_, fun z hu hnz => ?_⟩
  · rw [zip_self_map, fillnaResultR_length, mergeShape_length _ _ _ (zoneIds_nodup obs)]
  · rw [zip_self_map]
    exact fillnaResultR_mem_zero _ _ (mergeShape_absent _ _ _ (zoneIds_nodup obs) z hu hnz)

theorem getShannonIndex_pos_spec (counts : List ℚ) (hpos : ∀ c ∈ counts, 0 < c) :
    ∃ H : ℝ, getShannonIndex counts = some H ∧ 0 ≤ H ∧ (counts.length = 1 → H = 0) := by
  by_cases hnil : counts = []
  · subst hnil
    exact ⟨0, rfl, le_refl 0, fun h => by simp at h⟩
  have htot : 0 < counts.sum := List.sum_pos counts hpos hnil
  have hguard : counts.all (fun c => decide (0 < c / counts.sum)) = true := by
    rw [List.all_eq_true]
    intro c hc
    simpa using div_pos (hpos c hc) htot
  rw [getShannonIndex, if_neg hnil, if_pos hguard]
  refine ⟨_, rfl, ?_, ?_⟩
  · refine List.sum_nonneg fun x hx => ?_
    obtain ⟨c, hc, rfl⟩ := List.mem_map.mp hx
    have hp : (0 : ℝ) < ((c : ℚ) : ℝ) / ((counts.sum : ℚ) : ℝ) :=
      div_pos (by exact_mod_cast hpos c hc) (by exact_mod_cast htot)
    have hp1 : ((c : ℚ) : ℝ) / ((counts.sum : ℚ) : ℝ) ≤ 1 := by
      rw [div_le_one (by exact_mod_cast htot)]
      exact_mod_cast List.single_le_sum (fun x hx => le_of_lt (hpos x hx)) c hc
    have hlog : Real.logb 2 (((c : ℚ) : ℝ) / ((counts.sum : ℚ) : ℝ)) ≤ 0 :=
      Real.logb_nonpos (by norm_num) (le_of_lt hp) hp1
    have : ((c : ℚ) : ℝ) / ((counts.sum : ℚ) : ℝ)
        * Real.logb 2 (((c : ℚ) : ℝ) / ((counts.sum : ℚ) : ℝ)) ≤ 0 :=
      mul_nonpos_iff.mpr (Or.inl ⟨le_of_lt hp, hlog⟩)
    linarith
  · intro hlen
    obtain ⟨c, rfl⟩ := List.length_eq_one.mp hlen
    have hc : (0 : ℚ) < c := hpos c (List.mem_singleton_self c)
    have hsum : ([c] : List ℚ).sum = c := by simp
    rw [List.map_singleton, List.sum_singleton, hsum]
    rw [div_self (by exact_mod_cast ne_of_gt hc)]
    simp

theorem f3Unique_le_three (rows : List Obs) : f3Unique rows ≤ 3 := by
  unfold f3Unique
  exact le_trans (List.length_filter_le _ _) (by simp)

theorem f3Unique_pos (rows : List Obs) (r : Obs) (hr : r ∈ rows) (d : String)
    (hd : d ∈ ["D1", "D2", "D3"]) (hdl : r.dLevel = some d) : 0 < f3Unique rows := by
  have hcount : 0 < dLevelCount rows d := by
    have hm : r ∈ rows.filter (fun x => x.dLevel = some d) :=
      List.mem_filter.mpr ⟨hr, by simpa using hdl⟩
    exact List.length_pos.mpr (List.ne_nil_of_mem hm)
  have hmem : dLevelCount rows d ∈ ["D1", "D2", "D3"].map (dLevelCount rows) :=
    List.mem_map_of_mem _ hd
  have hmf : dLevelCount rows d
      ∈ (["D1", "D2", "D3"].map (dLevelCount rows)).filter (fun n => 0 < n) :=
    List.mem_filter.mpr ⟨hmem, by simpa using hcount⟩
  unfold f3Unique
  exact List.length_pos.mpr (List.ne_nil_of_mem hmf)

theorem foldl_max_const (c : ℝ) : ∀ (t : List ℝ) (a : ℝ), a = c → (∀ x ∈ t, x = c) →
    t.foldl max a = c
  | [], _, ha, _ => ha
  | x :: t, a, ha, hall => by
    have hx : x = c := hall x (List.mem_cons_self _ _)
    exact foldl_max_const c t (max a x) (by rw [ha, hx, max_self])
      (fun y hy => hall y (List.mem_cons_of_mem _ hy))

theorem foldl_min_const (c : ℝ) : ∀ (t : List ℝ) (a : ℝ), a = c → (∀ x ∈ t, x = c) →
    t.foldl min a = c
  | [], _, ha, _ => ha
  | x :: t, a, ha, hall => by
    have hx : x = c := hall x (List.mem_cons_self _ _)
    exact foldl_min_const c t (min a x) (by rw [ha, hx, min_self])
      (fun y hy => hall y (List.mem_cons_of_mem _ hy))

/-! ### Claims -/

/-- C1 (corrected): each index run that produces a table at all produces
exactly one row per zone of the biotope universe, with every zone absent
from the aggregation receiving result 0 (the final `fillna` leaves no
null result).  This holds unconditionally for `FoodResourceCount`
(PreyRatio), `ConnectionStrength` (ConnectionPresence) and
`SimilarFunctionalSpecies` (FunctionalSubstitution); for
`CombinableProducersAndConsumers` (TrophicCoverage) it additionally
requires every grouped zone's score lookup to be in range, and for
`DiversityIndex` (DiversityShannon) it requires at least one grouped zone
and a defined entropy in every grouped zone — otherwise those two runs
raise instead of producing a table (see the counterexample). -/
theorem C1_zone_coverage (univ : List String) (obs : List Obs) (scores : List ℚ) :
    ((foodResourceCountRun univ obs).length = univ.length
      ∧ ∀ z ∈ univ, z ∉ zoneIds obs → (z, (0 : ℚ)) ∈ foodResourceCountRun univ obs)
    ∧ ((connectionStrengthRun univ obs).length = univ.length
      ∧ ∀ z ∈ univ, z ∉ zoneIds obs → (z, (0 : ℚ)) ∈ connectionStrengthRun univ obs)
    ∧ ((similarFunctionalRun univ obs).length = univ.length
      ∧ ∀ z ∈ univ, z ∉ zoneIds obs → (z, (0 : ℚ)) ∈ similarFunctionalRun univ obs)
    ∧ ((∀ z ∈ zoneIds obs, (f3Score scores (zoneRows obs z)).isSome) →
        ∃ tb, combinableRun scores univ obs = some tb ∧ tb.length = univ.length
          ∧ ∀ z ∈ univ, z ∉ zoneIds obs → (z, (0 : ℚ)) ∈ tb)
    ∧ (zoneIds obs ≠ [] →
        (∀ z ∈ zoneIds obs, (zoneShannon (zoneRows obs z)).isSome) →
        ∃ tb, diversityIndexRun univ obs = some tb ∧ tb.length = univ.length
          ∧ ∀ z ∈ univ, z ∉ zoneIds obs → (z, (0 : ℝ)) ∈ tb) := by
  refine ⟨⟨?_, fun z hu hnz => ?_⟩, ⟨?_, fun z hu hnz => ?_⟩, ⟨?_, fun z hu hnz => ?_⟩,
    combinableRun_spec scores univ obs, diversityIndexRun_spec univ obs⟩
  · rw [foodResourceCountRun_eq, fillnaResult_length,
      mergeShape_length _ _ _ (zoneIds_nodup obs)]
  · rw [foodResourceCountRun_eq]
    exact fillnaResult_mem_zero _ _ (mergeShape_absent _ _ _ (zoneIds_nodup obs) z hu hnz)
  · rw [connectionStrengthRun_eq, fillnaResult_length,
      mergeShape_length _ _ _ (zoneIds_nodup obs)]
  · rw [connectionStrengthRun_eq]
    exact fillnaResult_mem_zero _ _ (mergeShape_absent _ _ _ (zoneIds_nodup obs) z hu hnz)
  · rw [similarFunctionalRun, fillnaResult_length,
      mergeShape_length _ _ _ (zoneIds_nodup obs)]
  · rw [similarFunctionalRun]
    exact fillnaResult_mem_zero _ _ (mergeShape_absent _ _ _ (zoneIds_nodup obs) z hu hnz)

/-- Witness for C1: at universe `{Z1, Z2}` with the two demo observations
in `Z1`, every run yields a two-row table in which absent zone `Z2` has
result 0. -/
theorem C1_zone_coverage_witness :
    (foodResourceCountRun ["Z1", "Z2"] demoObs).length = 2
    ∧ ("Z2", (0 : ℚ)) ∈ foodResourceCountRun ["Z1", "Z2"] demoObs
    ∧ (∃ tb, combinableRun defaultScores ["Z1", "Z2"] demoObs = some tb
        ∧ tb.length = 2 ∧ ("Z2", (0 : ℚ)) ∈ tb)
    ∧ (∃ tb, diversityIndexRun ["Z1", "Z2"] demoObs = some tb
        ∧ tb.length = 2 ∧ ("Z2", (0 : ℝ)) ∈ tb) := by
  have h := C1_zone_coverage ["Z1", "Z2"] demoObs defaultScores
  have hsh : ∀ z ∈ zoneIds demoObs, (zoneShannon (zoneRows demoObs z)).isSome := by
    have hzs : zoneIds demoObs = ["Z1"] := by decide
    rw [hzs]
    intro z hz
    have hz1 : z = "Z1" := by simpa using hz
    subst hz1
    have hc : zonePreyCounts (zoneRows demoObs "Z1") = [3] := demoPreyCounts_eval
    obtain ⟨H, hH, -, -⟩ := getShannonIndex_pos_spec [3] (by decide)
    rw [zoneShannon, hc, hH]
    rfl
  obtain ⟨tb3, h3, h3len, h3mem⟩ := h.2.2.2.1 (by decide)
  obtain ⟨tb2, h2, h2len, h2mem⟩ := h.2.2.2.2 (by decide) hsh
  exact ⟨h.1.1, h.1.2 "Z2" (by decide) (by decide),
    ⟨tb3, h3, h3len, h3mem "Z2" (by decide) (by decide)⟩,
    ⟨tb2, h2, h2len, h2mem "Z2" (by decide) (by decide)⟩⟩

/-- Counterexample to C1 as stated: with an empty enriched table there is
no grouped zone at all, and `DiversityIndex.run` computes `max()` of the
empty `F2_SHANNON` column inside `_minmax_normalize`, which raises
`ValueError`: no output table is produced, rather than a table with one
row per universe zone. -/
theorem C1_zone_coverage_cex : diversityIndexRun ["Z1"] [] = none := rfl

/-- C5 (code bug): on an empty enriched observation table the other four
calculators succeed — zero grouped rows, and the final merge gives every
universe zone the default result 0 — but `DiversityIndex.run` raises
`ValueError` (`max()` of the empty `F2_SHANNON` column inside
`_minmax_normalize`) instead of succeeding as the claim requires. -/
theorem C5_empty_table_bug :
    foodResourceCountRun ["Z1", "Z2"] [] = [("Z1", 0), ("Z2", 0)]
    ∧ connectionStrengthRun ["Z1", "Z2"] [] = [("Z1", 0), ("Z2", 0)]
    ∧ similarFunctionalRun ["Z1", "Z2"] [] = [("Z1", 0), ("Z2", 0)]
    ∧ combinableRun defaultScores ["Z1", "Z2"] [] = some [("Z1", 0), ("Z2", 0)]
    ∧ diversityIndexRun ["Z1", "Z2"] [] = none :=
  ⟨rfl, rfl, rfl, rfl, rfl⟩

/-- C6 (confirmed): when every zone with a computed value yields the same
Shannon entropy (`max == min` over the `F2_SHANNON` column),
`_minmax_normalize` divides by zero on every element — each quotient is
the float `0.0/0.0`, NaN — so the normalization step returns no defined
normalized result for any zone. -/
theorem C6_degenerate_normalization (hs : List ℝ) (c : ℝ)
    (hne : hs ≠ []) (hall : ∀ x ∈ hs, x = c) :
    minmaxNormalize hs = some (hs.map (fun _ => (none : Option ℝ))) := by
  obtain ⟨a, t, rfl⟩ := List.exists_cons_of_ne_nil hne
  have hmax : pyMax (a :: t) = some c := by
    show some (t.foldl max a) = some c
    rw [foldl_max_const c t a (hall a (List.mem_cons_self _ _))
      (fun x hx => hall x (List.mem_cons_of_mem _ hx))]
  have hmin : pyMin (a :: t) = some c := by
    show some (t.foldl min a) = some c
    rw [foldl_min_const c t a (hall a (List.mem_cons_self _ _))
      (fun x hx => hall x (List.mem_cons_of_mem _ hx))]
  unfold minmaxNormalize
  rw [hmax, hmin]
  simp

/-- Witness for C6: two zones with the identical entropy value 1 both get
an undefined (NaN) normalized result. -/
theorem C6_degenerate_normalization_witness :
    minmaxNormalize [(1 : ℝ), 1] = some [none, none] := by
  have h := C6_degenerate_normalization [(1 : ℝ), 1] 1 (by simp)
    (by intro x hx; rcases List.mem_cons.mp hx with rfl | hx
        · rfl
        · simpa using hx)
  simpa using h

/-- C2 (corrected): `FoodResourceCount` emits, per zone,
`result = prey_sum / total_sum`, but `total_sum` sums `개체수` only over
the zone's Observations that carry a non-null diet category — pandas'
`groupby("Owls_foods")` drops uncategorised rows — not over all
Observations of the zone, and it is not always ≥ 1 (see the
counterexample).  Whenever at least one Observation of the zone is
categorised and every Observation's coerced count is positive,
`total_sum > 0`, the division is well defined, `prey_sum ≤ total_sum`,
and `0 ≤ result ≤ 1` with `result = prey_sum / total_sum` exactly. -/
theorem C2_prey_ratio (obs : List Obs) (z : String)
    (hpos : ∀ r ∈ zoneRows obs z, 0 < r.count)
    (hcat : ∃ r ∈ zoneRows obs z, r.owlsFoods.isSome) :
    0 < (f1Row (zoneRows obs z)).2.1
    ∧ (f1Row (zoneRows obs z)).1 ≤ (f1Row (zoneRows obs z)).2.1
    ∧ (f1Row (zoneRows obs z)).2.2
        = (f1Row (zoneRows obs z)).1 / (f1Row (zoneRows obs z)).2.1
    ∧ 0 ≤ (f1Row (zoneRows obs z)).2.2 ∧ (f1Row (zoneRows obs z)).2.2 ≤ 1 := by
  have h1 := preySum_nonneg_le_catSum (zoneRows obs z) (fun r hr => le_of_lt (hpos r hr))
  have h2 := catSum_pos (zoneRows obs z) hpos hcat
  refine ⟨h2, h1.2, rfl, div_nonneg h1.1 (le_of_lt h2), ?_⟩
  show _ / _ ≤ (1 : ℚ)
  rw [div_le_one h2]
  exact h1.2

/-- Witness for C2 at the demo zone `Z1` (one prey Observation of count 3
and one normal Observation of count 1). -/
theorem C2_prey_ratio_witness :
    0 < (f1Row (zoneRows demoObs "Z1")).2.1
    ∧ (f1Row (zoneRows demoObs "Z1")).2.2
        = (f1Row (zoneRows demoObs "Z1")).1 / (f1Row (zoneRows demoObs "Z1")).2.1
    ∧ 0 ≤ (f1Row (zoneRows demoObs "Z1")).2.2
    ∧ (f1Row (zoneRows demoObs "Z1")).2.2 ≤ 1 := by
  have hzr : zoneRows demoObs "Z1" = [rowA, rowB] := rfl
  have hpos : ∀ r ∈ zoneRows demoObs "Z1", 0 < r.count := by
    rw [hzr]
    intro r hr
    rcases List.mem_cons.mp hr with rfl | hr
    · norm_num [rowA]
    rcases List.mem_cons.mp hr with rfl | hr
    · norm_num [rowB]
    simp at hr
  have hcat : ∃ r ∈ zoneRows demoObs "Z1", r.owlsFoods.isSome :=
    ⟨rowA, by rw [hzr]; exact List.mem_cons_self _ _, rfl⟩
  have h := C2_prey_ratio demoObs "Z1" hpos hcat
  exact ⟨h.1, h.2.2.1, h.2.2.2.1, h.2.2.2.2⟩

/-- Counterexample to C2 as stated: zone `Z1` of `unmatchedObs` holds
exactly one Observation, with coerced count 1 but a null diet category,
so the claimed total over all Observations would be 1 (≥ 1); the emitted
`F1_TOTAL_N` is 0, because `groupby("Owls_foods")` dropped the
uncategorised row, and the result is the float quotient `0/0`. -/
theorem C2_prey_ratio_cex :
    zoneRows unmatchedObs "Z1" = [rowC] ∧ rowC.count = 1
    ∧ (f1Row (zoneRows unmatchedObs "Z1")).2.1 = 0 :=
  ⟨rfl, rfl, rfl⟩

/-- C3 (code bug): under the retain policy (`skip_noname=False`) a
placeholder Observation (species name `" "`) keeps its row and receives
`국명 = "Noname"`, `Owls_foods = "Normal_S"` and `D_Level = "D3"`, but
its substitution class is NOT overwritten: the dictionary key at
foodchain.py:391 is `Alternative_s` (lower-case `s`), a different pandas
column from the `Alternative_S` column that
`SimilarFunctionalSpecies.run` reads, so `Alternative_S` stays null for
an unmatched placeholder row and its `Normal_S` count stays 0. -/
theorem C3_placeholder_fallback_bug :
    placeholderObs
      = [⟨some "Z1", "Noname", some "Normal_S", some "D3", none,
          some "Normal_S", .absent, 1⟩]
    ∧ placeholderObs.map (·.altS) = [none]
    ∧ altCount placeholderObs "Normal_S" = 0 :=
  ⟨rfl, rfl, rfl⟩

/-- C4 (corrected): the score lookup `scores[3 - distinct_tier_count]`
over the 3-entry default table is well defined only when the zone has at
least one Observation on a recognised tier (`D1`, `D2` or `D3`), i.e.
when `distinct_tier_count ∈ {1, 2, 3}`; the reachable count 0 makes the
index 3, out of range (see the counterexample).  With the default table
`(1, 0.6, 0.3)`, a zone spanning exactly 2 distinct tiers scores 0.6. -/
theorem C4_trophic_lookup (rows : List Obs)
    (h : ∃ r ∈ rows, ∃ d ∈ ["D1", "D2", "D3"], r.dLevel = some d) :
    (f3Score defaultScores rows).isSome
    ∧ (f3Unique rows = 2 → f3Score defaultScores rows = some (3/5)) := by
  obtain ⟨r, hr, d, hd, hdl⟩ := h
  have h1 := f3Unique_pos rows r hr d hd hdl
  have h3 := f3Unique_le_three rows
  constructor
  · unfold f3Score
    have hc : f3Unique rows = 1 ∨ f3Unique rows = 2 ∨ f3Unique rows = 3 := by omega
    rcases hc with hu | hu | hu <;> rw [hu] <;> rfl
  · intro h2
    unfold f3Score
    rw [h2]
    rfl

/-- Witness for C4: the demo zone spans exactly the two tiers `D1` and
`D2`, so the default-table lookup is defined and yields `0.6`. -/
theorem C4_trophic_lookup_witness :
    (f3Score defaultScores (zoneRows demoObs "Z1")).isSome
    ∧ f3Score defaultScores (zoneRows demoObs "Z1") = some (3/5) := by
  have h := C4_trophic_lookup (zoneRows demoObs "Z1")
    ⟨rowA, by rw [show zoneRows demoObs "Z1" = [rowA, rowB] from rfl]
              exact List.mem_cons_self _ _,
      "D1", by decide, rfl⟩
  exact ⟨h.1, h.2 (by decide)⟩

/-- Counterexample to C4 as stated: zone `Z1` of `unmatchedObs` has one
Observation but no recognised tier (`D_Level` is null after the failed
trait merge), so the reachable distinct-tier count is 0 and the lookup
index `3 - 0 = 3` is out of range for the 3-entry table:
`CombinableProducersAndConsumers.run` raises `IndexError` (modelled as
`none`). -/
theorem C4_trophic_lookup_cex :
    zoneRows unmatchedObs "Z1" ≠ []
    ∧ f3Unique (zoneRows unmatchedObs "Z1") = 0
    ∧ f3Score defaultScores (zoneRows unmatchedObs "Z1") = none
    ∧ combinableRun defaultScores ["Z1"] unmatchedObs = none :=
  ⟨by decide, rfl, rfl, rfl⟩

/-- C7 (confirmed): for every enriched Observation, a raw count field
that is missing or fails numeric parsing yields `individual_count = 1`;
the coercion `pd.to_numeric(..., errors="coerce").fillna(1)` is total and
never propagates the parse failure to the caller. -/
theorem C7_count_coercion (traits : List Trait) (skip : Bool)
    (srows : List SurveyRow) (o : Obs) (ho : o ∈ enrich traits skip srows)
    (h : o.raw = RawField.malformed ∨ o.raw = RawField.absent) : o.count = 1 := by
  obtain ⟨pre, hpre, rfl⟩ := List.mem_map.mp ho
  show coerceCount pre.raw = 1
  rcases h with h | h
  · have h1 : pre.raw = RawField.malformed := h
    rw [h1, coerceCount]
  · have h1 : pre.raw = RawField.absent := h
    rw [h1, coerceCount]

/-- Witness for C7: a survey point with an unparseable count field is
enriched to an Observation with count 1. -/
theorem C7_count_coercion_witness :
    (⟨some "Z1", "X", none, none, none, none, .malformed, 1⟩ : Obs).count = 1 :=
  C7_count_coercion [] true [⟨some "Z1", "X", .malformed⟩]
    ⟨some "Z1", "X", none, none, none, none, .malformed, 1⟩ (by decide) (Or.inl rfl)

/-- C8 (confirmed): for every zone with at least one Observation,
`ConnectionStrength` emits as `F4_PREY_N` the zone's prey-category count
from `value_counts()` — the number of rows whose `Owls_foods` is
`Prey_S` — and the emitted result is 1 exactly when that count is
positive, i.e. exactly when the zone has a prey-category Observation,
else 0. -/
theorem C8_connection_presence (obs : List Obs) (z : String) (hz : z ∈ zoneIds obs) :
    ∃ res : ℚ, (z, f4PreyCount (zoneRows obs z), res) ∈ connectionAgg obs
      ∧ (res = 1 ∨ res = 0)
      ∧ (res = 1 ↔ ∃ r ∈ zoneRows obs z, r.owlsFoods = some "Prey_S") := by
  have key : 0 < f4PreyCount (zoneRows obs z)
      ↔ ∃ r ∈ zoneRows obs z, r.owlsFoods = some "Prey_S" := by
    unfold f4PreyCount
    rw [List.length_pos]
    constructor
    · intro hne
      obtain ⟨r, hr⟩ := List.exists_mem_of_ne_nil _ hne
      exact ⟨r, List.mem_of_mem_filter hr, by simpa using (List.mem_filter.mp hr).2⟩
    · rintro ⟨r, hr, hrp⟩
      exact List.ne_nil_of_mem (List.mem_filter.mpr ⟨hr, by simpa using hrp⟩)
  refine ⟨if 0 < f4PreyCount (zoneRows obs z) then (1 : ℚ) else 0,
    List.mem_map.mpr ⟨z, hz, rfl⟩, ?_, ?_⟩
  · by_cases h : 0 < f4PreyCount (zoneRows obs z)
    · exact Or.inl (if_pos h)
    · exact Or.inr (if_neg h)
  · by_cases h : 0 < f4PreyCount (zoneRows obs z)
    · rw [if_pos h]
      exact ⟨fun _ => key.mp h, fun _ => rfl⟩
    · rw [if_neg h]
      constructor
      · intro h0
        norm_num at h0
      · intro hex
        exact absurd (key.mpr hex) h

/-- Witness for C8 at the demo zone `Z1`, which has one prey-category
Observation. -/
theorem C8_connection_presence_witness :
    ∃ res : ℚ, ("Z1", f4PreyCount (zoneRows demoObs "Z1"), res) ∈ connectionAgg demoObs
      ∧ (res = 1 ∨ res = 0)
      ∧ (res = 1 ↔ ∃ r ∈ zoneRows demoObs "Z1", r.owlsFoods = some "Prey_S") :=
  C8_connection_presence demoObs "Z1" (by decide)

/-- C9 (corrected): whenever every per-species summed count of a zone's
prey-category Observations is positive, the pre-normalization Shannon
entropy is defined with `H ≥ 0`, and `H = 0` when exactly one species is
present.  Without the positivity restriction the claim fails: a reachable
zero per-species count makes the proportion 0 and `math.log2(0)` raises,
so no entropy is computed at all (see the counterexample). -/
theorem C9_shannon_nonneg (rows : List Obs)
    (hpos : ∀ c ∈ zonePreyCounts rows, 0 < c) :
    ∃ H : ℝ, zoneShannon rows = some H ∧ 0 ≤ H
      ∧ ((zoneSpecies rows).length = 1 → H = 0) := by
  obtain ⟨H, hH, hnn, hone⟩ := getShannonIndex_pos_spec (zonePreyCounts rows) hpos
  refine ⟨H, hH, hnn, fun hlen => hone ?_⟩
  unfold zonePreyCounts
  rw [List.length_map]
  exact hlen

/-- Witness for C9 at the demo zone: a single prey species of count 3
yields a defined entropy `H` with `H ≥ 0`, and `H = 0` since exactly one
species is present. -/
theorem C9_shannon_nonneg_witness :
    ∃ H : ℝ, zoneShannon (zoneRows demoObs "Z1") = some H ∧ 0 ≤ H
      ∧ ((zoneSpecies (zoneRows demoObs "Z1")).length = 1 → H = 0) := by
  refine C9_shannon_nonneg (zoneRows demoObs "Z1") ?_
  rw [demoPreyCounts_eval]
  intro c hc
  rw [List.mem_singleton.mp hc]
  norm_num

/-- Counterexample to C9 as stated: in zone `Z1` of `zeroCountObs` the
two prey species have summed counts 1 and 0 (a raw count field of `0`
passes numeric parsing unchanged); the second species' proportion is 0,
`math.log2(0)` raises `ValueError`, and the zone has no computed entropy
at all — in particular no nonnegative one. -/
theorem C9_shannon_nonneg_cex :
    zonePreyCounts (zoneRows zeroCountObs "Z1") = [1, 0]
    ∧ zoneShannon (zoneRows zeroCountObs "Z1") = none := by
  have hc : zonePreyCounts (zoneRows zeroCountObs "Z1") = [1, 0] := by
    unfold zonePreyCounts
    rw [show zoneSpecies (zoneRows zeroCountObs "Z1") = ["A", "B"] from rfl,
      show preyRowsOf (zoneRows zeroCountObs "Z1") = [rowZA, rowZB] from rfl]
    norm_num [rowZA, rowZB, List.filter,
      show (decide ("B" = "A")) = false from rfl,
      show (decide ("A" = "B")) = false from rfl]
  refine ⟨hc, ?_⟩
  have hne : ¬(([1, 0] : List ℚ) = []) := by simp
  have hguard :
      ¬((([1, 0] : List ℚ).all fun c => decide (0 < c / ([1, 0] : List ℚ).sum)) = true) := by
    norm_num [List.sum_cons, List.sum_nil]
  rw [zoneShannon, hc, getShannonIndex, if_neg hne, if_neg hguard]

/-- C10 (confirmed): the blank placeholder recognised by both policies is
exactly the single-space name `" "`.  A row with any other species name —
the empty string, other whitespace, a real name — is kept by the drop
policy and left fully unchanged by the retain policy's overwrite, while a
`" "`-named row is dropped (resp. renamed to `Noname`). -/
theorem C10_placeholder_exact (r : PreObs) :
    (r.name ≠ " " →
      dropIf [r] (fun x => x.name = " ") = [r] ∧ replaceNonameRow r = r)
    ∧ (r.name = " " →
      dropIf [r] (fun x => x.name = " ") = []
        ∧ (replaceNonameRow r).name = "Noname") := by
  constructor
  · intro h
    constructor
    · simp [dropIf, h]
    · unfold replaceNonameRow
      rw [if_neg h]
  · intro h
    constructor
    · simp [dropIf, h]
    · unfold replaceNonameRow
      rw [if_pos h]

/-- Witness for C10: a row whose species name is the empty string — not
the single-space placeholder — is kept by the drop policy and unchanged
by the retain policy. -/
theorem C10_placeholder_exact_witness :
    dropIf [⟨some "Z1", "", none, none, none, none, .absent⟩]
        (fun x => x.name = " ")
      = [⟨some "Z1", "", none, none, none, none, .absent⟩]
    ∧ replaceNonameRow ⟨some "Z1", "", none, none, none, none, .absent⟩
      = ⟨some "Z1", "", none, none, none, none, .absent⟩ :=
  (C10_placeholder_exact _).1 (by decide)

end Biotools
